import Mathlib

/-!
# Verification of the authentication / session / authorization core

A shallow embedding of the auth core of the repository (an epic-stack
fork with multi-account sessions).  The database is modelled as explicit
lists of records mirroring the Prisma schema (migration file); each
server function from `auth.server.ts` (`src/unnamed/part_000`),
`permissions.server.ts` and the OAuth callback loader
`auth.$provider.callback.ts` becomes a pure Lean function taking the
database, the current time (milliseconds since epoch, as `Nat`) and the
request data, and returning the structured response together with the
updated database.  Thrown remix redirects are modelled as explicit
result constructors.  External collaborators (bcrypt, cookie
serialization, the OAuth provider exchange) are parameters or are
modelled from the specification, as noted at each definition.
-/

namespace EpicStack

/-! ## Data model (from the Prisma schema, `src/unnamed/part_001`) -/

/-- An `Account` row, with the 1:1 `Password` row folded into the
optional `passwordHash` field (`Password` has a unique `accountId`). -/
structure AccountRec where
  id : String
  email : String
  username : String
  passwordHash : Option String
  deriving Repr, DecidableEq

/-- A `Session` row, with the `_AccountToSession` many-to-many edges
folded in as the `accounts` id list. -/
structure SessionRec where
  id : String
  expirationDate : Nat
  activeAccountId : Option String
  accounts : List String
  deriving Repr, DecidableEq

/-- A `Connection` row.  `accountId` is nullable in the schema. -/
structure ConnectionRec where
  providerName : String
  providerId : String
  accountId : Option String
  deriving Repr, DecidableEq

/-- A `Permission` row (unique on the action/entity/access triple). -/
structure PermissionRec where
  action : String
  entity : String
  access : String
  deriving Repr, DecidableEq

/-- A `Role` row with its `_RolePermissions` edges folded in. -/
structure RoleRec where
  name : String
  permissions : List PermissionRec
  deriving Repr, DecidableEq

/-- A `Membership` row with its `_MembershipToRole` edges folded in. -/
structure MembershipRec where
  organizationId : String
  roles : List RoleRec
  deriving Repr, DecidableEq

/-- A `User` (profile) row.  `roles` is the direct user-to-role
relation consulted by `requireUserWithRole`; `memberships` is the
membership relation consulted by `requireUserWithPermission`. -/
structure UserRec where
  id : String
  accountId : String
  name : String
  memberships : List MembershipRec
  roles : List RoleRec
  deriving Repr, DecidableEq

/-- A `Verification` row (only the fields the auth flow reads). -/
structure VerificationRec where
  type : String
  target : String
  expirationDate : Option Nat
  deriving Repr, DecidableEq

/-- The database state: one list per table. -/
structure DB where
  accounts : List AccountRec
  sessions : List SessionRec
  connections : List ConnectionRec
  users : List UserRec
  roles : List RoleRec
  verifications : List VerificationRec
  deriving Repr, DecidableEq

/-- The bcrypt library (external collaborator): a hash function and the
comparator.  Theorems that need the bcrypt round-trip property take it
as an explicit hypothesis. -/
structure Bcrypt where
  hash : String → String
  compare : String → String → Bool

/-! ## Small helpers -/

/-- `application/x-www-form-urlencoded` safe code points: ASCII
alphanumerics and `*`, `-`, `.`, `_` are kept verbatim
(`URLSearchParams` serialization). -/
def isFormSafe (n : Nat) : Bool :=
  (65 ≤ n && n ≤ 90) || (97 ≤ n && n ≤ 122) || (48 ≤ n && n ≤ 57) ||
  n == 42 || n == 45 || n == 46 || n == 95

/-- Upper-case hexadecimal digit. -/
def hexDigit (n : Nat) : Char :=
  if n < 10 then Char.ofNat (48 + n) else Char.ofNat (55 + n)

/-- `URLSearchParams` encoding of one character: space becomes `+`,
safe characters are verbatim, the rest percent-escaped.  (Character
level; agrees with the byte-level serialization on ASCII, which covers
every path and redirect target in this development.) -/
def encodeChar (c : Char) : String :=
  if c.toNat == 32 then "+"
  else if isFormSafe c.toNat then String.singleton c
  else "%" ++ String.singleton (hexDigit (c.toNat / 16)) ++
       String.singleton (hexDigit (c.toNat % 16))

/-- `URLSearchParams` value serialization. -/
def formUrlEncode (s : String) : String :=
  String.join (s.data.map encodeChar)

/-- JS template-literal rendering of a possibly-`undefined` string
(`undefined` interpolates as the text "undefined"). -/
def jsShow (o : Option String) : String :=
  match o with
  | some s => s
  | none => "undefined"

/-- JS `String.prototype.toLowerCase()`, character-wise (agrees with
the JS behavior on ASCII, which covers the fixture data here). -/
def strLower (s : String) : String := ⟨s.data.map Char.toLower⟩

/-- Split a character list on a separator (JS `String.prototype.split`
with a one-character separator; the empty string splits to `[""]`). -/
def splitCharList (sep : Char) : List Char → List (List Char)
  | [] => [[]]
  | c :: cs =>
    let r := splitCharList sep cs
    if c = sep then [] :: r
    else
      match r with
      | [] => [[c]]
      | x :: xs => (c :: x) :: xs

/-- JS `s.split(sep)` for a one-character separator. -/
def splitOnCharStr (sep : Char) (s : String) : List String :=
  (splitCharList sep s.data).map fun l => ⟨l⟩

/-! ## `auth.server.ts` (`src/unnamed/part_000`) -/

/-- `SESSION_EXPIRATION_TIME = 1000 * 60 * 60 * 24 * 30` (30 days in
milliseconds). -/
def SESSION_EXPIRATION_TIME : Nat := 1000 * 60 * 60 * 24 * 30

/-- `getSessionExpirationDate = () => new Date(Date.now() + SESSION_EXPIRATION_TIME)`. -/
def getSessionExpirationDate (now : Nat) : Nat := now + SESSION_EXPIRATION_TIME

/-- A thrown remix `redirect` response: the `Location` header and
whether the response carries the `set-cookie` header that destroys the
auth session cookie. -/
structure ThrownRedirect where
  location : String
  destroyAuthCookie : Bool
  deriving Repr, DecidableEq

/-- Result of `getAccountId`: `null`, an account id, or a thrown
redirect response. -/
inductive AuthResult where
  | noSession
  | ok (accountId : String)
  | thrown (r : ThrownRedirect)
  deriving Repr, DecidableEq

/-- `getAccountId(request)` from `auth.server.ts`.  The signed cookie
read is modelled by the `cookieSessionId` argument (the value stored
under `sessionKey`, `none` when absent); the JS falsy test
`if (!sessionId) return null` also catches the empty string.  The
Prisma `findUnique` with `where: { id, expirationDate: { gt: new Date() } }`
is a lookup filtered by strict expiration, and the claimed active
account is then searched in the session's account set. -/
def getAccountId (db : DB) (now : Nat) (cookieSessionId : Option String) :
    AuthResult :=
  match cookieSessionId with
  | none => .noSession
  | some sessionId =>
    if sessionId = "" then .noSession
    else
      let session := db.sessions.find? fun s =>
        s.id == sessionId && decide (now < s.expirationDate)
      let account := session.bind fun s =>
        s.accounts.find? fun id => s.activeAccountId == some id
      match account with
      | none => .thrown ⟨"/", true⟩
      | some accountId => .ok accountId

/-- Result of the `require*` helpers: an account id or a thrown
redirect. -/
inductive RequireResult where
  | ok (accountId : String)
  | thrown (r : ThrownRedirect)
  deriving Repr, DecidableEq

/-- The `/login` redirect target built by `requireAccountId`:
`['/login', loginParams?.toString()].filter(Boolean).join('?')` where
`loginParams` is `new URLSearchParams({ redirectTo })` when the
resolved `redirectTo` is truthy.  `redirectToArg` models the optional
`redirectTo` option (`none` = omitted, `some none` = explicit `null`,
`some (some r)` = a string). -/
def loginRedirectLocation (requestPathAndQuery : String)
    (redirectToArg : Option (Option String)) : String :=
  let redirectTo : Option String :=
    match redirectToArg with
    | some none => none
    | some (some r) => some r
    | none => some requestPathAndQuery
  match redirectTo with
  | some r => if r = "" then "/login" else "/login?redirectTo=" ++ formUrlEncode r
  | none => "/login"

/-- `requireAccountId(request, { redirectTo })` from `auth.server.ts`:
delegates to `getAccountId`; a thrown redirect propagates; a `null`
account id becomes a thrown redirect to the `/login` route with the
`redirectTo` search parameter defaulting to the current path+query. -/
def requireAccountId (db : DB) (now : Nat) (cookieSessionId : Option String)
    (requestPathAndQuery : String) (redirectToArg : Option (Option String)) :
    RequireResult :=
  match getAccountId db now cookieSessionId with
  | .ok accountId => .ok accountId
  | .thrown r => .thrown r
  | .noSession =>
      .thrown ⟨loginRedirectLocation requestPathAndQuery redirectToArg, false⟩

/-- The `where` argument of `verifyAccountPassword`:
`Pick<Account, 'username'> | Pick<Account, 'id'>`. -/
inductive AccountWhere where
  | byUsername (username : String)
  | byId (id : String)
  deriving Repr, DecidableEq

/-- `prisma.account.findUnique({ where })` (username and id are unique
columns). -/
def findUniqueAccount (db : DB) (w : AccountWhere) : Option AccountRec :=
  match w with
  | .byUsername u => db.accounts.find? fun a => a.username == u
  | .byId i => db.accounts.find? fun a => a.id == i

/-- `getPasswordHash` (bcrypt with fixed cost 10). -/
def getPasswordHash (bc : Bcrypt) (password : String) : String :=
  bc.hash password

/-- `verifyAccountPassword(where, password)` from `auth.server.ts`:
looks up the account with its password hash; returns `null` when the
account is missing or has no password row; otherwise compares with
`bcrypt.compare` and returns the account id only on match. -/
def verifyAccountPassword (db : DB) (bc : Bcrypt) (w : AccountWhere)
    (password : String) : Option String :=
  match findUniqueAccount db w with
  | none => none
  | some userWithPassword =>
    match userWithPassword.passwordHash with
    | none => none
    | some hash =>
      if bc.compare password hash then some userWithPassword.id else none

/-- `login({ username, password })` from `auth.server.ts`: verifies the
password, then `prisma.session.create` with
`expirationDate: getSessionExpirationDate()`,
`activeAccountId: account.id` and
`accounts: { connect: { id: account.id } }`.  The store-generated cuid
is modelled by the `newSessionId` argument. -/
def login (db : DB) (bc : Bcrypt) (now : Nat) (newSessionId : String)
    (username password : String) : Option SessionRec × DB :=
  match verifyAccountPassword db bc (.byUsername username) password with
  | none => (none, db)
  | some accountId =>
    let session : SessionRec :=
      { id := newSessionId
        expirationDate := getSessionExpirationDate now
        activeAccountId := some accountId
        accounts := [accountId] }
    (some session, { db with sessions := db.sessions ++ [session] })

/-- Why `signup`'s single nested `prisma.session.create` can fail: the
`Account.email` / `Account.username` unique indexes, or the
`roles: { connect: { name: 'user' } }` target being absent. -/
inductive SignupError where
  | uniqueViolation
  | missingUserRole
  deriving Repr, DecidableEq

/-- `signup({ email, username, password, name })` from `auth.server.ts`:
one nested `prisma.session.create` (hence one transaction: it either
commits every row or none) creating the Session, the Account (email and
username lowercased), its Password (bcrypt hash), the User profile and
a Membership in organization `'default'` connected to the role named
`'user'`.  The session's account set is the created account
(`accounts: { create: ... }`); no `activeAccountId` is set.  Generated
ids are the `newSessionId`/`newAccountId`/`newUserId` arguments. -/
def signup (db : DB) (bc : Bcrypt) (now : Nat)
    (newSessionId newAccountId newUserId : String)
    (email username name password : String) :
    Except SignupError SessionRec × DB :=
  let hashedPassword := getPasswordHash bc password
  let email' := strLower email
  let username' := strLower username
  if db.accounts.any fun a => a.email == email' || a.username == username' then
    (.error .uniqueViolation, db)
  else
    match db.roles.find? fun r => r.name == "user" with
    | none => (.error .missingUserRole, db)
    | some userRole =>
      let account : AccountRec :=
        { id := newAccountId, email := email', username := username',
          passwordHash := some hashedPassword }
      let user : UserRec :=
        { id := newUserId, accountId := newAccountId, name := name,
          memberships := [{ organizationId := "default", roles := [userRole] }],
          roles := [] }
      let session : SessionRec :=
        { id := newSessionId
          expirationDate := getSessionExpirationDate now
          activeAccountId := none
          accounts := [newAccountId] }
      (.ok session,
        { db with
            accounts := db.accounts ++ [account]
            users := db.users ++ [user]
            sessions := db.sessions ++ [session] })

/-! ## `permissions.server.ts` -/

/-- The parsed form of a permission string. -/
structure PermissionData where
  action : String
  entity : String
  access : Option (List String)
  deriving Repr, DecidableEq

/-- Modelled from the spec: `parsePermissionString` from `user.ts` (not
under `src/`) "parses the permission string into (action, entity,
access optionally multi-valued)" — JS `s.split(':')` destructuring with
the access segment comma-split, and a falsy (absent or empty) access
segment leaving the access filter unset. -/
def parsePermissionString (s : String) : PermissionData :=
  let parts := splitOnCharStr ':' s
  { action := ((parts.get? 0).getD "")
    entity := ((parts.get? 1).getD "")
    access := (parts.get? 2).bind fun a =>
      if a = "" then none else some (splitOnCharStr ',' a) }

/-- `process.env.ORGANIZATION_ID || 'default'` (JS `||`: an unset or
empty variable falls back to `'default'`). -/
def configuredOrganizationId (envOrganizationId : Option String) : String :=
  match envOrganizationId with
  | some s => if s = "" then "default" else s
  | none => "default"

/-- The Prisma permission filter in `requireUserWithPermission`:
action and entity equality plus `access: { in: ... }` when an access
set was requested. -/
def permissionMatches (pd : PermissionData) (p : PermissionRec) : Bool :=
  p.action == pd.action && p.entity == pd.entity &&
    (match pd.access with
     | some accessList => accessList.contains p.access
     | none => true)

/-- The `prisma.user.findFirst` of `requireUserWithPermission`: a user
with the given id having some membership in the configured organization
whose roles include some permission matching the parsed descriptor. -/
def userPermissionQuery (db : DB) (envOrganizationId : Option String)
    (userId : String) (pd : PermissionData) : Option String :=
  (db.users.find? fun u =>
    u.id == userId &&
    u.memberships.any fun m =>
      m.organizationId == configuredOrganizationId envOrganizationId &&
      m.roles.any fun r => r.permissions.any (permissionMatches pd)).map (·.id)

/-- Result of `requireUserWithPermission`: the account id, the thrown
403 `json` carrying the required-permission descriptor, or a propagated
authentication redirect. -/
inductive PermResult where
  | ok (accountId : String)
  | forbidden403 (requiredPermission : PermissionData)
  | thrown (r : ThrownRedirect)
  deriving Repr, DecidableEq

/-- `requireUserWithPermission(request, permission)` from
`permissions.server.ts`. -/
def requireUserWithPermission (db : DB) (envOrganizationId : Option String)
    (now : Nat) (cookieSessionId : Option String)
    (requestPathAndQuery : String) (permission : String) : PermResult :=
  match requireAccountId db now cookieSessionId requestPathAndQuery none with
  | .thrown r => .thrown r
  | .ok userId =>
    let permissionData := parsePermissionString permission
    match userPermissionQuery db envOrganizationId userId permissionData with
    | none => .forbidden403 permissionData
    | some uid => .ok uid

/-- Result of `requireUserWithRole`: the account id, the thrown 403
`json` carrying the required role name, or a propagated authentication
redirect. -/
inductive RoleResult where
  | ok (accountId : String)
  | forbidden403 (requiredRole : String)
  | thrown (r : ThrownRedirect)
  deriving Repr, DecidableEq

/-- `requireUserWithRole(request, name)` from `permissions.server.ts`:
`prisma.user.findFirst({ where: { id, roles: { some: { name } } } })` —
the direct user-to-role relation, with no membership traversal and no
organization filter (the function never reads `ORGANIZATION_ID`). -/
def requireUserWithRole (db : DB) (now : Nat) (cookieSessionId : Option String)
    (requestPathAndQuery : String) (name : String) : RoleResult :=
  match requireAccountId db now cookieSessionId requestPathAndQuery none with
  | .thrown r => .thrown r
  | .ok userId =>
    match db.users.find? fun u =>
        u.id == userId && u.roles.any fun r => r.name == name with
    | none => .forbidden403 name
    | some u => .ok u.id

/-- The membership-scoped role resolution, for comparison with
`requireUserWithRole`: the Membership-within-configured-organization
traversal shape of `requireUserWithPermission`, keyed on the role name.
(A comparison definition; `requireUserWithRole` itself is the direct
relation above.) -/
def membershipScopedHasRole (db : DB) (envOrganizationId : Option String)
    (userId roleName : String) : Bool :=
  db.users.any fun u =>
    u.id == userId &&
    u.memberships.any fun m =>
      m.organizationId == configuredOrganizationId envOrganizationId &&
      m.roles.any fun r => r.name == roleName

/-! ## `auth.$provider.callback.ts` (OAuth callback loader) -/

/-- The verified external profile returned by the provider exchange
(the fields the loader reads; `username` may be absent). -/
structure Profile where
  id : String
  email : String
  username : Option String
  name : Option String
  deriving Repr, DecidableEq

/-- Toast kinds (`type ∈ {message, success, error}`;
`redirectWithToast` defaults to `message` when unspecified). -/
inductive ToastType where
  | message
  | success
  | error
  deriving Repr, DecidableEq

/-- A transient toast notification attached to a redirect. -/
structure Toast where
  title : String
  description : String
  type : ToastType
  deriving Repr, DecidableEq

/-- Modelled from the spec: `normalizeEmail` from
`providers/provider.ts` (not under `src/`) — email normalization
lowercases. -/
def normalizeEmail (s : String) : String := strLower s

/-- Modelled from the spec: `normalizeUsername` from
`providers/provider.ts` (not under `src/`) — username normalization
lowercases and replaces characters outside `[a-z0-9_]` with `_`. -/
def normalizeUsername (s : String) : String :=
  ⟨(strLower s).data.map fun c =>
    if c.isAlpha || c.isDigit || c == '_' then c else '_'⟩

/-- What the loader stashes into the short-lived verification-flow
session for onboarding: the raw profile email under
`onboardingEmailSessionKey`, the normalized profile under
`prefilledProfileKey`, and the provider id under `providerIdKey`. -/
structure VerifySessionData where
  onboardingEmail : String
  prefilledProfile : Profile
  providerId : String
  deriving Repr, DecidableEq

/-- The terminal responses of the OAuth callback loader.  Each carries
whether the response includes the header destroying the pending
redirect-target cookie (`destroyRedirectTo`). -/
inductive LoaderResponse where
  /-- `throw await redirectWithToast(...)` on provider exchange failure. -/
  | thrownRedirectWithToast (location : String) (toast : Toast)
      (destroysRedirectCookie : Bool)
  /-- A returned `redirectWithToast(...)`. -/
  | redirectWithToast (location : String) (toast : Toast)
      (destroysRedirectCookie : Bool)
  /-- A redirect thrown inside `getAccountId` propagating out of the
  loader. -/
  | thrownAuthRedirect (r : ThrownRedirect)
  /-- The onboarding redirect committing the verification-flow
  session cookie. -/
  | onboardingRedirect (location : String) (verifySession : VerifySessionData)
      (destroysRedirectCookie : Bool)
  /-- A redirect that sets the auth session cookie to the new
  session. -/
  | sessionCookieRedirect (sessionId : String) (location : String)
      (toast : Option Toast) (destroysRedirectCookie : Bool)
  /-- The two-factor challenge redirect; no auth cookie is set. -/
  | verifyRedirect (location : String) (destroysRedirectCookie : Bool)
  deriving Repr, DecidableEq

/-- The platform's 2FA verification type. -/
def twoFAVerificationType : String := "2fa"

/-- Modelled from the spec: `handleNewSession` from `login.server.ts`
(not under `src/`) — "after creating any new Session, check whether the
target account has an active two-factor Verification record of the
platform's 2FA type; if so, do NOT set the auth cookie — instead
redirect to a verification challenge route carrying `type`, `target`
(account id), and `redirectTo` as query parameters"; otherwise set the
auth session cookie and redirect to `redirectTo`. -/
def handleNewSession (db : DB) (now : Nat) (session : SessionRec)
    (redirectTo : String) (toast : Option Toast) (destroys : Bool) :
    LoaderResponse :=
  let target := session.activeAccountId.getD ""
  if db.verifications.any fun v =>
      v.type == twoFAVerificationType && v.target == target &&
      (match v.expirationDate with
       | some e => decide (now < e)
       | none => true) then
    .verifyRedirect
      ("/verify?type=" ++ formUrlEncode twoFAVerificationType ++
       "&target=" ++ formUrlEncode target ++
       "&redirectTo=" ++ formUrlEncode redirectTo) destroys
  else
    .sessionCookieRedirect session.id redirectTo toast destroys

/-- `makeSession({ request, activeAccountId, redirectTo }, responseInit)`
from `auth.$provider.callback.ts`: defaults `redirectTo` to `'/'`, then
`prisma.session.create` with `expirationDate: getSessionExpirationDate()`
and `activeAccountId` — and no `accounts` connect, so the created
session's account set is empty — then `handleNewSession` with
`destroyRedirectTo` merged into the headers. -/
def makeSession (db : DB) (now : Nat) (newSessionId : String)
    (activeAccountId : Option String) (redirectTo : Option String)
    (toast : Option Toast) : LoaderResponse × DB :=
  let redirectTo := redirectTo.getD "/"
  let session : SessionRec :=
    { id := newSessionId
      expirationDate := getSessionExpirationDate now
      activeAccountId := activeAccountId
      accounts := [] }
  let db' := { db with sessions := db.sessions ++ [session] }
  (handleNewSession db' now session redirectTo toast true, db')

/-- The OAuth callback `loader`.  Inputs model the request:
`authResult` is the outcome of the provider code exchange
(`authenticator.authenticate` with `throwOnError`, caught by the
`.then` pair), `cookieSessionId` the auth cookie's session id,
`redirectTo` the pending redirect-target cookie value
(`getRedirectCookieValue`), and `newSessionId` the store-generated
session id.  Output: the response, the updated database, and how many
times `console.error` ran. -/
def loader (db : DB) (now : Nat) (providerName label : String)
    (authResult : Except String Profile)
    (cookieSessionId : Option String) (redirectTo : Option String)
    (newSessionId : String) : LoaderResponse × DB × Nat :=
  match authResult with
  | .error _e =>
    (.thrownRedirectWithToast "/login"
      { title := "Auth Failed"
        description := "There was an error authenticating with " ++ label ++ "."
        type := .error } true, db, 1)
  | .ok profile =>
    let existingConnection := db.connections.find? fun c =>
      c.providerName == providerName && c.providerId == profile.id
    match getAccountId db now cookieSessionId with
    | .thrown r => (.thrownAuthRedirect r, db, 0)
    | authRes =>
      let accountId : Option String :=
        match authRes with
        | .ok aid => some aid
        | _ => none
      match existingConnection, accountId with
      | some conn, some aid =>
        if conn.accountId == some aid then
          (.redirectWithToast "/settings/profile/connections"
            { title := "Already Connected"
              description := "Your \"" ++ jsShow profile.username ++ "\" " ++
                label ++ " account is already connected."
              type := .message } true, db, 0)
        else
          (.redirectWithToast "/settings/profile/connections"
            { title := "Already Connected"
              description := "The \"" ++ jsShow profile.username ++ "\" " ++
                label ++ " account is already connected to another account."
              type := .message } true, db, 0)
      | _, _ =>
        match accountId with
        | some aid =>
          -- If we're already logged in, then link the account
          let db' := { db with connections :=
            db.connections ++ [{ providerName := providerName,
                                 providerId := profile.id,
                                 accountId := some aid }] }
          (.redirectWithToast "/settings/profile/connections"
            { title := "Connected"
              description := "Your \"" ++ jsShow profile.username ++ "\" " ++
                label ++ " account has been connected."
              type := .success } true, db', 0)
        | none =>
          match existingConnection with
          | some conn =>
            -- Connection exists already? Make a new session
            let (resp, db') :=
              makeSession db now newSessionId conn.accountId none none
            (resp, db', 0)
          | none =>
            match db.accounts.find? fun a =>
                a.email == strLower profile.email with
            | some user =>
              -- the email matches an account: link and make a session
              let db' := { db with connections :=
                db.connections ++ [{ providerName := providerName,
                                     providerId := profile.id,
                                     accountId := some user.id }] }
              let (resp, db'') :=
                makeSession db' now newSessionId (some user.id) none
                  (some { title := "Connected"
                          description := "Your \"" ++
                            jsShow profile.username ++ "\" " ++ label ++
                            " account has been connected."
                          type := .message })
              (resp, db'', 0)
            | none =>
              -- a new user: onboarding
              let verifyData : VerifySessionData :=
                { onboardingEmail := profile.email
                  prefilledProfile :=
                    { profile with
                        email := normalizeEmail profile.email
                        username := profile.username.map normalizeUsername }
                  providerId := profile.id }
              let onboardingRedirect :=
                match redirectTo with
                | some r =>
                  if r = "" then "/onboarding/" ++ providerName
                  else "/onboarding/" ++ providerName ++ "?redirectTo=" ++
                       formUrlEncode r
                | none => "/onboarding/" ++ providerName
              (.onboardingRedirect onboardingRedirect verifyData true, db, 0)

/-! ## Concrete fixtures for witnesses -/

/-- A concrete bcrypt instance for witness evaluation (an injective
tag-based hash with the matching comparator). -/
def bcTest : Bcrypt := ⟨fun p => "h" ++ p, fun p h => h == "h" ++ p⟩

/-- Branch C fixture: one account, one GitHub connection to it, no
active session. -/
def dbBranchC : DB :=
  ⟨[⟨"acc1", "a@x.com", "alice", some (bcTest.hash "pw")⟩], [],
   [⟨"github", "gh1", some "acc1"⟩], [], [], []⟩

/-- The OAuth callback run on the Branch C fixture with an
unauthenticated caller (connection exists, caller not logged in). -/
def branchCOut : LoaderResponse × DB × Nat :=
  loader dbBranchC 1000 "github" "GitHub"
    (.ok ⟨"gh1", "a@x.com", some "alice", none⟩) none none "s9"

end EpicStack

namespace EpicStack

/-! ## Helper lemmas -/

/-- Unfolding of `getAccountId` on a present, non-empty session id. -/
theorem getAccountId_some_eq (db : DB) (now : Nat) (sid : String)
    (h : sid ≠ "") :
    getAccountId db now (some sid) =
      match (db.sessions.find? fun s =>
          s.id == sid && decide (now < s.expirationDate)).bind
          (fun s => s.accounts.find? fun id => s.activeAccountId == some id) with
      | none => .thrown ⟨"/", true⟩
      | some accountId => .ok accountId := by
  simp only [getAccountId, if_neg h]

/-! ## Claim theorems -/

/-- C1: `getAccountId` returns an account id only if the cookie's
session id refers to a Session whose expiration is strictly in the
future and whose claimed active account id is a member of the session's
account set; an expired Session is never resolved even if the row still
exists; and a present session id that fails the checks yields a thrown
redirect to the home route that destroys the auth cookie. -/
theorem getAccountId_resolution_spec (db : DB) (now : Nat) (sid : String)
    (hnd : (db.sessions.map SessionRec.id).Nodup) (hsid : sid ≠ "") :
    (∀ aid, getAccountId db now (some sid) = .ok aid →
      ∃ s ∈ db.sessions, s.id = sid ∧ now < s.expirationDate ∧
        s.activeAccountId = some aid ∧ aid ∈ s.accounts)
    ∧ (∀ s ∈ db.sessions, s.id = sid → s.expirationDate ≤ now →
        getAccountId db now (some sid) = .thrown ⟨"/", true⟩)
    ∧ ((∃ aid, getAccountId db now (some sid) = .ok aid) ∨
        getAccountId db now (some sid) = .thrown ⟨"/", true⟩) := by
  rw [getAccountId_some_eq db now sid hsid]
  cases hfind : db.sessions.find? fun s =>
      s.id == sid && decide (now < s.expirationDate) with
  | none =>
    refine ⟨?_, ?_, Or.inr rfl⟩
    · intro aid h; cases h
    · intro s hmem hid hexp; rfl
  | some s =>
    have hp := List.find?_some hfind
    have hsmem := List.mem_of_find?_eq_some hfind
    simp only [Bool.and_eq_true, beq_iff_eq, decide_eq_true_eq] at hp
    obtain ⟨hsid', hslt⟩ := hp
    have hexpired : ∀ s' ∈ db.sessions, s'.id = sid → s'.expirationDate ≤ now →
        False := by
      intro s' hmem' hid' hexp'
      have : s' = s := List.inj_on_of_nodup_map hnd hmem' hsmem (by
        simp [hid', hsid'])
      subst this
      omega
    simp only [Option.some_bind]
    cases hacc : s.accounts.find? fun id => s.activeAccountId == some id with
    | none =>
      refine ⟨?_, ?_, Or.inr rfl⟩
      · intro aid h; cases h
      · intro s' hmem' hid' hexp'
        exact absurd (hexpired s' hmem' hid' hexp') not_false
    | some aid =>
      have hq := List.find?_some hacc
      have haidmem := List.mem_of_find?_eq_some hacc
      simp only [beq_iff_eq] at hq
      refine ⟨?_, ?_, Or.inl ⟨aid, rfl⟩⟩
      · intro aid' h
        cases h
        exact ⟨s, hsmem, hsid', hslt, hq, haidmem⟩
      · intro s' hmem' hid' hexp'
        exact absurd (hexpired s' hmem' hid' hexp') not_false

/-- C1 witness: a live session with its active account in the account
set resolves; the theorem's hypotheses hold at the concrete input. -/
theorem getAccountId_resolution_spec_witness :
    ∃ s ∈ (DB.mk [] [⟨"s1", 5000, some "a1", ["a1"]⟩] [] [] [] []).sessions,
      s.id = "s1" ∧ 1000 < s.expirationDate ∧ s.activeAccountId = some "a1" ∧
      "a1" ∈ s.accounts :=
  (getAccountId_resolution_spec (DB.mk [] [⟨"s1", 5000, some "a1", ["a1"]⟩] [] [] [] [])
    1000 "s1" (by decide) (by decide)).1 "a1" (by decide)

/-- C9: `getAccountId` returns `null` exactly when the auth cookie
carries no session id (absent, or the empty string the JS falsy check
treats as absent); for a present session id the result is an account id
or the thrown home redirect destroying the cookie — so
`requireAccountId`'s `/login` redirect occurs only for requests whose
cookie holds no session id. -/
theorem requireAccountId_login_redirect_spec (db : DB) (now : Nat)
    (cookie : Option String) (path : String) (rto : Option (Option String)) :
    (getAccountId db now cookie = .noSession ↔
      (cookie = none ∨ cookie = some ""))
    ∧ (∀ sid, cookie = some sid → sid ≠ "" →
        (∃ aid, requireAccountId db now cookie path rto = .ok aid ∧
          getAccountId db now cookie = .ok aid) ∨
        requireAccountId db now cookie path rto = .thrown ⟨"/", true⟩)
    ∧ ((cookie = none ∨ cookie = some "") →
        requireAccountId db now cookie path rto =
          .thrown ⟨loginRedirectLocation path rto, false⟩) := by
  refine ⟨?_, ?_, ?_⟩
  · constructor
    · intro h
      match cookie with
      | none => exact Or.inl rfl
      | some sid =>
        by_cases hsid : sid = ""
        · exact Or.inr (by rw [hsid])
        · rw [getAccountId_some_eq db now sid hsid] at h
          cases hb : (db.sessions.find? fun s =>
              s.id == sid && decide (now < s.expirationDate)).bind
              (fun s => s.accounts.find? fun id =>
                s.activeAccountId == some id) with
          | none => rw [hb] at h; cases h
          | some aid => rw [hb] at h; cases h
    · rintro (rfl | rfl) <;> rfl
  · rintro sid rfl hsid
    unfold requireAccountId
    rw [getAccountId_some_eq db now sid hsid]
    cases hb : (db.sessions.find? fun s =>
        s.id == sid && decide (now < s.expirationDate)).bind
        (fun s => s.accounts.find? fun id =>
          s.activeAccountId == some id) with
    | none => exact Or.inr rfl
    | some aid =>
      exact Or.inl ⟨aid, rfl, rfl⟩
  · rintro (rfl | rfl) <;> simp [requireAccountId, getAccountId]

/-- C9 witness: with no cookie session id, `requireAccountId` throws
the `/login` redirect carrying the current path as `redirectTo`. -/
theorem requireAccountId_login_redirect_spec_witness :
    requireAccountId (DB.mk [] [] [] [] [] []) 1000 none "/notes?q=1" none =
      .thrown ⟨"/login?redirectTo=%2Fnotes%3Fq%3D1", false⟩ := by
  have h := (requireAccountId_login_redirect_spec (DB.mk [] [] [] [] [] [])
    1000 none "/notes?q=1" none).2.2 (Or.inl rfl)
  rw [h]; decide

/-- If `find?` misses on the left list, it continues on the right. -/
theorem find?_append_left_none {α : Type} (p : α → Bool) (l₁ l₂ : List α)
    (h : l₁.find? p = none) : (l₁ ++ l₂).find? p = l₂.find? p := by
  rw [List.find?_append, h, Option.none_or]

/-- C3: after a `signup` with password `p`, `verifyAccountPassword` by
the stored username returns the new account's id for `p` (given the
bcrypt round-trip), returns `none` for any password the stored bcrypt
hash does not match, and in general returns `none` for a username with
no account or for an account with no stored password. -/
theorem verifyAccountPassword_spec (db db' : DB) (bc : Bcrypt) (now : Nat)
    (sid aid uid : String) (email username name password : String)
    (sess : SessionRec)
    (hsignup : signup db bc now sid aid uid email username name password =
      (.ok sess, db'))
    (hround : bc.compare password (bc.hash password) = true) :
    verifyAccountPassword db' bc (.byUsername (strLower username)) password =
      some aid
    ∧ (∀ q, bc.compare q (bc.hash password) = false →
        verifyAccountPassword db' bc (.byUsername (strLower username)) q = none)
    ∧ (∀ (dbx : DB) (u p : String), (∀ a ∈ dbx.accounts, a.username ≠ u) →
        verifyAccountPassword dbx bc (.byUsername u) p = none)
    ∧ (∀ (dbx : DB) (u p : String) (a : AccountRec),
        findUniqueAccount dbx (.byUsername u) = some a →
        a.passwordHash = none →
        verifyAccountPassword dbx bc (.byUsername u) p = none) := by
  have hgen₁ : ∀ (dbx : DB) (u p : String),
      (∀ a ∈ dbx.accounts, a.username ≠ u) →
      verifyAccountPassword dbx bc (.byUsername u) p = none := by
    intro dbx u p hnone
    have : dbx.accounts.find? (fun a => a.username == u) = none := by
      rw [List.find?_eq_none]
      intro a ha
      simp [hnone a ha]
    simp [verifyAccountPassword, findUniqueAccount, this]
  have hgen₂ : ∀ (dbx : DB) (u p : String) (a : AccountRec),
      findUniqueAccount dbx (.byUsername u) = some a →
      a.passwordHash = none →
      verifyAccountPassword dbx bc (.byUsername u) p = none := by
    intro dbx u p a hfind hnopw
    simp [verifyAccountPassword, hfind, hnopw]
  -- extract the shape of the successful signup
  unfold signup at hsignup
  by_cases hany : (db.accounts.any fun a =>
      a.email == strLower email || a.username == strLower username) = true
  · rw [if_pos hany] at hsignup
    cases hsignup
  · rw [if_neg hany] at hsignup
    cases hrole : db.roles.find? fun r => r.name == "user" with
    | none => rw [hrole] at hsignup; cases hsignup
    | some userRole =>
      rw [hrole] at hsignup
      simp only [Prod.mk.injEq, Except.ok.injEq] at hsignup
      obtain ⟨hsess, hdb'⟩ := hsignup
      subst hsess hdb'
      rw [List.any_eq_true] at hany
      push_neg at hany
      -- the pre-existing accounts do not carry the new username
      have hleft : db.accounts.find?
          (fun a => a.username == strLower username) = none := by
        rw [List.find?_eq_none]
        intro a ha
        have h1 := hany a ha
        simp only [ne_eq, Bool.or_eq_true, not_or] at h1
        exact h1.2
      have hfind : findUniqueAccount
          { db with
              accounts := db.accounts ++
                [{ id := aid, email := strLower email,
                   username := strLower username,
                   passwordHash := some (getPasswordHash bc password) }]
              users := db.users ++
                [{ id := uid, accountId := aid, name := name,
                   memberships :=
                     [{ organizationId := "default", roles := [userRole] }],
                   roles := [] }]
              sessions := db.sessions ++
                [{ id := sid,
                   expirationDate := getSessionExpirationDate now,
                   activeAccountId := none, accounts := [aid] }] }
          (.byUsername (strLower username)) =
          some { id := aid, email := strLower email,
                 username := strLower username,
                 passwordHash := some (getPasswordHash bc password) } := by
        simp only [findUniqueAccount]
        rw [find?_append_left_none _ _ _ hleft]
        simp
      refine ⟨?_, ?_, hgen₁, hgen₂⟩
      · simp only [verifyAccountPassword]
        rw [hfind]
        simp [getPasswordHash, hround]
      · intro q hq
        simp only [verifyAccountPassword]
        rw [hfind]
        simp [getPasswordHash, hq]

/-- C3 witness: a concrete signup followed by verification with the
right and with a wrong password. -/
theorem verifyAccountPassword_spec_witness :
    verifyAccountPassword
      (DB.mk [⟨"a1", "a@x.com", "alice", some "hpw"⟩]
        [⟨"s1", 2592001000, none, ["a1"]⟩] []
        [⟨"u1", "a1", "Alice N", [⟨"default", [⟨"user", []⟩]⟩], []⟩]
        [⟨"user", []⟩] [])
      bcTest (.byUsername (strLower "Alice")) "pw" = some "a1"
    ∧ verifyAccountPassword
      (DB.mk [⟨"a1", "a@x.com", "alice", some "hpw"⟩]
        [⟨"s1", 2592001000, none, ["a1"]⟩] []
        [⟨"u1", "a1", "Alice N", [⟨"default", [⟨"user", []⟩]⟩], []⟩]
        [⟨"user", []⟩] [])
      bcTest (.byUsername (strLower "Alice")) "nope" = none := by
  have h := verifyAccountPassword_spec
    (DB.mk [] [] [] [] [⟨"user", []⟩] [])
    (DB.mk [⟨"a1", "a@x.com", "alice", some "hpw"⟩]
      [⟨"s1", 2592001000, none, ["a1"]⟩] []
      [⟨"u1", "a1", "Alice N", [⟨"default", [⟨"user", []⟩]⟩], []⟩]
      [⟨"user", []⟩] [])
    bcTest 1000 "s1" "a1" "u1" "A@X.com" "Alice" "Alice N" "pw"
    ⟨"s1", 2592001000, none, ["a1"]⟩ (by rfl) (by decide)
  exact ⟨h.1, h.2.1 "nope" (by decide)⟩

/-- C6: `signup` is a single atomic unit: on failure the database is
unchanged (no partial state), and on success it creates exactly the
Account (email and username lowercased, with the bcrypt Password hash),
the default User profile carrying a Membership in the `default`
organization with the `user` role, and the Session bound to the new
account — nothing else. -/
theorem signup_atomic_spec (db : DB) (bc : Bcrypt) (now : Nat)
    (sid aid uid email username name password : String) :
    (∀ e db', signup db bc now sid aid uid email username name password =
        (.error e, db') → db' = db)
    ∧ (∀ sess db', signup db bc now sid aid uid email username name password =
        (.ok sess, db') →
      ∃ userRole, db.roles.find? (fun r => r.name == "user") = some userRole ∧
        sess = { id := sid, expirationDate := now + SESSION_EXPIRATION_TIME,
                 activeAccountId := none, accounts := [aid] } ∧
        db' = { db with
          accounts := db.accounts ++
            [{ id := aid, email := strLower email, username := strLower username,
               passwordHash := some (bc.hash password) }]
          users := db.users ++
            [{ id := uid, accountId := aid, name := name,
               memberships :=
                 [{ organizationId := "default", roles := [userRole] }],
               roles := [] }]
          sessions := db.sessions ++ [sess] }) := by
  unfold signup
  by_cases hany : (db.accounts.any fun a =>
      a.email == strLower email || a.username == strLower username) = true
  · rw [if_pos hany]
    constructor
    · intro e db' h
      simp only [Prod.mk.injEq] at h
      exact h.2.symm
    · intro sess db' h
      simp only [Prod.mk.injEq] at h
      cases h.1
  · rw [if_neg hany]
    cases hrole : db.roles.find? fun r => r.name == "user" with
    | none =>
      constructor
      · intro e db' h
        simp only [Prod.mk.injEq] at h
        exact h.2.symm
      · intro sess db' h
        simp only [Prod.mk.injEq] at h
        cases h.1
    | some userRole =>
      constructor
      · intro e db' h
        simp only [Prod.mk.injEq] at h
        cases h.1
      · intro sess db' h
        simp only [Prod.mk.injEq, Except.ok.injEq] at h
        obtain ⟨hs, hdb⟩ := h
        subst hs
        subst hdb
        exact ⟨userRole, rfl, rfl, rfl⟩

/-- C6 witness: the success case at a concrete input, and the failure
case (missing `user` role) leaving the database unchanged. -/
theorem signup_atomic_spec_witness :
    (∃ userRole,
      (DB.mk [] [] [] [] [⟨"user", []⟩] []).roles.find?
        (fun r => r.name == "user") = some userRole ∧
      SessionRec.mk "s1" (1000 + SESSION_EXPIRATION_TIME) none ["a1"] =
        { id := "s1", expirationDate := 1000 + SESSION_EXPIRATION_TIME,
          activeAccountId := none, accounts := ["a1"] } ∧
      (DB.mk [⟨"a1", "a@x.com", "alice", some "hpw"⟩]
        [⟨"s1", 2592001000, none, ["a1"]⟩] []
        [⟨"u1", "a1", "Alice N", [⟨"default", [⟨"user", []⟩]⟩], []⟩]
        [⟨"user", []⟩] []) =
        { (DB.mk [] [] [] [] [⟨"user", []⟩] []) with
          accounts := (DB.mk [] [] [] [] [⟨"user", []⟩] []).accounts ++
            [{ id := "a1", email := strLower "A@X.com",
               username := strLower "Alice",
               passwordHash := some (bcTest.hash "pw") }]
          users := (DB.mk [] [] [] [] [⟨"user", []⟩] []).users ++
            [{ id := "u1", accountId := "a1", name := "Alice N",
               memberships :=
                 [{ organizationId := "default", roles := [userRole] }],
               roles := [] }]
          sessions := (DB.mk [] [] [] [] [⟨"user", []⟩] []).sessions ++
            [SessionRec.mk "s1" (1000 + SESSION_EXPIRATION_TIME) none
              ["a1"]] })
    ∧ (DB.mk [] [] [] [] [] []) = (DB.mk [] [] [] [] [] []) := by
  refine ⟨?_, ?_⟩
  · exact (signup_atomic_spec (DB.mk [] [] [] [] [⟨"user", []⟩] []) bcTest 1000
      "s1" "a1" "u1" "A@X.com" "Alice" "Alice N" "pw").2
      (SessionRec.mk "s1" (1000 + SESSION_EXPIRATION_TIME) none ["a1"])
      (DB.mk [⟨"a1", "a@x.com", "alice", some "hpw"⟩]
        [⟨"s1", 2592001000, none, ["a1"]⟩] []
        [⟨"u1", "a1", "Alice N", [⟨"default", [⟨"user", []⟩]⟩], []⟩]
        [⟨"user", []⟩] []) (by rfl)
  · exact (signup_atomic_spec (DB.mk [] [] [] [] [] []) bcTest 1000
      "s1" "a1" "u1" "A@X.com" "Alice" "Alice N" "pw").1
      .missingUserRole (DB.mk [] [] [] [] [] []) (by rfl)

/-- The boolean access filter agrees with its propositional reading:
when no access set is requested any access matches, otherwise the
permission's access must lie in the requested set. -/
theorem accessFilter_iff (o : Option (List String)) (x : String) :
    (match o with
     | some accessList => accessList.contains x
     | none => true) = true ↔ ∀ acc, o = some acc → x ∈ acc := by
  cases o with
  | none => simp
  | some l => simp

/-- The user-permission query predicate read propositionally. -/
theorem userPermissionQuery_pred_iff (env : Option String) (aid : String)
    (pd : PermissionData) (u : UserRec) :
    (u.id == aid &&
      u.memberships.any fun m =>
        m.organizationId == configuredOrganizationId env &&
        m.roles.any fun r => r.permissions.any (permissionMatches pd)) = true ↔
    (u.id = aid ∧ ∃ m ∈ u.memberships,
      m.organizationId = configuredOrganizationId env ∧
      ∃ r ∈ m.roles, ∃ p ∈ r.permissions,
        p.action = pd.action ∧ p.entity = pd.entity ∧
        (∀ acc, pd.access = some acc → p.access ∈ acc)) := by
  simp only [Bool.and_eq_true, beq_iff_eq, List.any_eq_true,
    permissionMatches]
  constructor
  · rintro ⟨hid, m, hm, horg, r, hr, p, hp, ⟨ha, he⟩, hacc⟩
    exact ⟨hid, m, hm, horg, r, hr, p, hp, ha, he,
      (accessFilter_iff pd.access p.access).mp hacc⟩
  · rintro ⟨hid, m, hm, horg, r, hr, p, hp, ha, he, hacc⟩
    exact ⟨hid, m, hm, horg, r, hr, p, hp, ⟨ha, he⟩,
      (accessFilter_iff pd.access p.access).mpr hacc⟩

/-- C4: for an authenticated caller, `requireUserWithPermission`
returns the caller's account id exactly when the account has, through
some Membership in the configured organization, a Role whose
Permissions include one with the parsed action and entity and an access
in the requested set (any access matching when none is requested); on
no match it throws the structured 403 carrying the parsed
required-permission descriptor, a distinct error kind from the
unauthenticated redirect. -/
theorem requireUserWithPermission_spec (db : DB) (env : Option String)
    (now : Nat) (cookie : Option String) (path s aid : String)
    (hauth : requireAccountId db now cookie path none = .ok aid) :
    (requireUserWithPermission db env now cookie path s = .ok aid ↔
      ∃ u ∈ db.users, u.id = aid ∧
        ∃ m ∈ u.memberships,
          m.organizationId = configuredOrganizationId env ∧
          ∃ r ∈ m.roles, ∃ p ∈ r.permissions,
            p.action = (parsePermissionString s).action ∧
            p.entity = (parsePermissionString s).entity ∧
            (∀ acc, (parsePermissionString s).access = some acc →
              p.access ∈ acc))
    ∧ (requireUserWithPermission db env now cookie path s ≠ .ok aid →
        requireUserWithPermission db env now cookie path s =
          .forbidden403 (parsePermissionString s))
    ∧ (∀ pd r, PermResult.forbidden403 pd ≠ PermResult.thrown r) := by
  have hlast : ∀ (pd : PermissionData) (r : ThrownRedirect),
      PermResult.forbidden403 pd ≠ PermResult.thrown r := by
    intro pd r h
    cases h
  simp only [requireUserWithPermission, hauth]
  cases hq : userPermissionQuery db env aid (parsePermissionString s) with
  | none =>
    refine ⟨?_, fun _ => rfl, hlast⟩
    constructor
    · intro h
      cases h
    · rintro ⟨u, hu, hid, hrest⟩
      have : (db.users.find? fun u => u.id == aid &&
          u.memberships.any fun m =>
            m.organizationId == configuredOrganizationId env &&
            m.roles.any fun r =>
              r.permissions.any
                (permissionMatches (parsePermissionString s))).isSome := by
        rw [List.find?_isSome]
        exact ⟨u, hu,
          (userPermissionQuery_pred_iff env aid (parsePermissionString s)
            u).mpr ⟨hid, hrest⟩⟩
      rw [userPermissionQuery] at hq
      rw [Option.map_eq_none'] at hq
      rw [hq] at this
      cases this
  | some uid =>
    rw [userPermissionQuery, Option.map_eq_some'] at hq
    obtain ⟨u, hfind, hid⟩ := hq
    have hp := List.find?_some hfind
    have hmem := List.mem_of_find?_eq_some hfind
    have hchar :=
      (userPermissionQuery_pred_iff env aid (parsePermissionString s) u).mp hp
    refine ⟨?_, ?_, hlast⟩
    · constructor
      · intro _
        exact ⟨u, hmem, hchar⟩
      · intro _
        rw [← hid, hchar.1]
    · intro hne
      exact absurd (by rw [← hid, hchar.1]) hne

/-- C4 witness: a concrete account whose membership role carries a
matching permission is allowed. -/
theorem requireUserWithPermission_spec_witness :
    requireUserWithPermission
      (DB.mk [⟨"a1", "a@x.com", "alice", none⟩]
        [⟨"s1", 5000, some "a1", ["a1"]⟩] []
        [⟨"a1", "a1", "Alice N",
          [⟨"default", [⟨"admin", [⟨"update", "note", "any"⟩]⟩]⟩], []⟩]
        [] [])
      none 1000 (some "s1") "/x" "update:note:own,any" = .ok "a1" := by
  refine (requireUserWithPermission_spec
    (DB.mk [⟨"a1", "a@x.com", "alice", none⟩]
      [⟨"s1", 5000, some "a1", ["a1"]⟩] []
      [⟨"a1", "a1", "Alice N",
        [⟨"default", [⟨"admin", [⟨"update", "note", "any"⟩]⟩]⟩], []⟩]
      [] [])
    none 1000 (some "s1") "/x" "update:note:own,any" "a1" (by decide)).1.mpr
    ⟨⟨"a1", "a1", "Alice N",
        [⟨"default", [⟨"admin", [⟨"update", "note", "any"⟩]⟩]⟩], []⟩,
      by decide, rfl,
      ⟨"default", [⟨"admin", [⟨"update", "note", "any"⟩]⟩]⟩,
      by decide, rfl,
      ⟨"admin", [⟨"update", "note", "any"⟩]⟩, by decide,
      ⟨"update", "note", "any"⟩, by decide, rfl, rfl, ?_⟩
  intro acc hacc
  cases hacc
  decide

/-- C10: `requireUserWithRole` resolves through the direct user-role
relation: for an authenticated caller it returns the caller's account
id exactly when the user record carries a role of the given name
directly — the function takes no organization configuration at all
(the source never reads `ORGANIZATION_ID`) and traverses no
memberships — and this resolution is not equivalent to the
membership-within-organization traversal used by
`requireUserWithPermission`. -/
theorem requireUserWithRole_spec (db : DB) (now : Nat)
    (cookie : Option String) (path name aid : String)
    (hauth : requireAccountId db now cookie path none = .ok aid) :
    (requireUserWithRole db now cookie path name = .ok aid ↔
      ∃ u ∈ db.users, u.id = aid ∧ ∃ r ∈ u.roles, r.name = name)
    ∧ ¬ (∀ (dbx : DB) (envx : Option String) (nowx : Nat)
          (cx : Option String) (px nx ax : String),
          requireUserWithRole dbx nowx cx px nx = .ok ax →
          membershipScopedHasRole dbx envx ax nx = true) := by
  constructor
  · simp only [requireUserWithRole, hauth]
    cases hfind : db.users.find? fun u =>
        u.id == aid && u.roles.any fun r => r.name == name with
    | none =>
      constructor
      · intro h
        cases h
      · rintro ⟨u, hu, hid, r, hr, hname⟩
        rw [List.find?_eq_none] at hfind
        refine absurd ?_ (hfind u hu)
        simp only [Bool.and_eq_true, beq_iff_eq, List.any_eq_true]
        exact ⟨hid, r, hr, hname⟩
    | some u =>
      have hp := List.find?_some hfind
      have hmem := List.mem_of_find?_eq_some hfind
      simp only [Bool.and_eq_true, beq_iff_eq, List.any_eq_true] at hp
      constructor
      · intro _
        exact ⟨u, hmem, hp.1, hp.2⟩
      · intro _
        show RoleResult.ok u.id = RoleResult.ok aid
        rw [hp.1]
  · intro hall
    have h := hall
      (DB.mk [] [⟨"s1", 5000, some "u1", ["u1"]⟩] []
        [⟨"u1", "u1", "U", [], [⟨"admin", []⟩]⟩] [] [])
      none 1000 (some "s1") "/x" "admin" "u1" (by decide)
    revert h
    decide

/-- C10 witness: an account holding the role through the direct
relation (with no membership at all) is allowed. -/
theorem requireUserWithRole_spec_witness :
    requireUserWithRole
      (DB.mk [] [⟨"s1", 5000, some "u1", ["u1"]⟩] []
        [⟨"u1", "u1", "U", [], [⟨"admin", []⟩]⟩] [] [])
      1000 (some "s1") "/x" "admin" = .ok "u1" :=
  (requireUserWithRole_spec
    (DB.mk [] [⟨"s1", 5000, some "u1", ["u1"]⟩] []
      [⟨"u1", "u1", "U", [], [⟨"admin", []⟩]⟩] [] [])
    1000 (some "s1") "/x" "admin" "u1" (by decide)).1.mpr
    ⟨⟨"u1", "u1", "U", [], [⟨"admin", []⟩]⟩, by decide, rfl,
      ⟨"admin", []⟩, by decide, rfl⟩

/-- C2: at the Branch C input (existing connection, caller not
authenticated), `makeSession`'s `prisma.session.create` sets the
30-day expiration and the connection's account as the active account
but does NOT associate that account into the session's account set
(no `accounts` connect), unlike `login`'s creation — and consequently
`getAccountId` rejects the created session (thrown home redirect
destroying the cookie) while it accepts the login-created one. -/
theorem makeSession_drops_account_set :
    branchCOut.2.1.sessions =
      [⟨"s9", 1000 + SESSION_EXPIRATION_TIME, some "acc1", []⟩]
    ∧ branchCOut.1 = .sessionCookieRedirect "s9" "/" none true
    ∧ getAccountId branchCOut.2.1 2000 (some "s9") = .thrown ⟨"/", true⟩
    ∧ (login dbBranchC bcTest 1000 "s9" "alice" "pw").2.sessions =
        [⟨"s9", 1000 + SESSION_EXPIRATION_TIME, some "acc1", ["acc1"]⟩]
    ∧ getAccountId (login dbBranchC bcTest 1000 "s9" "alice" "pw").2 2000
        (some "s9") = .ok "acc1" := by
  decide

/-- C7: when the provider code exchange fails, the loader logs the
error exactly once and terminates with a thrown redirect to `/login`
carrying an error toast and destroying the pending redirect-target
cookie; the database is unchanged and the exchange error value does not
escape (the result does not depend on it). -/
theorem loader_exchange_failure_spec (db : DB) (now : Nat)
    (providerName label e : String) (cookie redirectTo : Option String)
    (sid : String) :
    loader db now providerName label (.error e) cookie redirectTo sid =
      (.thrownRedirectWithToast "/login"
        ⟨"Auth Failed",
          "There was an error authenticating with " ++ label ++ ".",
          .error⟩ true, db, 1) := rfl

/-- C5: when the connection for the provider identity belongs to the
authenticated caller's own account, the loader redirects to the
connections-management route with the informational "already connected"
toast, mutates no state (in particular creates no duplicate
Connection), and repeating the callback gives the identical result. -/
theorem loader_already_connected_idempotent (db : DB) (now : Nat)
    (providerName label : String) (profile : Profile)
    (cookie redirectTo : Option String) (sid aid : String)
    (conn : ConnectionRec)
    (hconn : db.connections.find? (fun c =>
        c.providerName == providerName && c.providerId == profile.id) =
        some conn)
    (hmine : conn.accountId = some aid)
    (hauth : getAccountId db now cookie = .ok aid) :
    loader db now providerName label (.ok profile) cookie redirectTo sid =
      (.redirectWithToast "/settings/profile/connections"
        ⟨"Already Connected",
          "Your \"" ++ jsShow profile.username ++ "\" " ++ label ++
            " account is already connected.", .message⟩ true, db, 0)
    ∧ (loader db now providerName label (.ok profile) cookie redirectTo
        sid).2.1.connections = db.connections
    ∧ loader (loader db now providerName label (.ok profile) cookie
        redirectTo sid).2.1 now providerName label (.ok profile) cookie
        redirectTo sid =
      loader db now providerName label (.ok profile) cookie redirectTo
        sid := by
  have h1 : loader db now providerName label (.ok profile) cookie redirectTo
      sid =
      (.redirectWithToast "/settings/profile/connections"
        ⟨"Already Connected",
          "Your \"" ++ jsShow profile.username ++ "\" " ++ label ++
            " account is already connected.", .message⟩ true, db, 0) := by
    simp only [loader, hconn, hauth, hmine]
    simp
  refine ⟨h1, by rw [h1], ?_⟩
  rw [h1]
  exact h1

/-- C5 witness: the concrete already-connected callback is a pure
redirect-with-toast. -/
theorem loader_already_connected_idempotent_witness :
    loader
      (DB.mk [⟨"acc1", "a@x.com", "alice", none⟩]
        [⟨"s1", 5000, some "acc1", ["acc1"]⟩]
        [⟨"github", "gh1", some "acc1"⟩] [] [] [])
      1000 "github" "GitHub" (.ok ⟨"gh1", "a@x.com", some "alice", none⟩)
      (some "s1") none "s9" =
      (.redirectWithToast "/settings/profile/connections"
        ⟨"Already Connected",
          "Your \"" ++ jsShow (some "alice") ++ "\" " ++ "GitHub" ++
            " account is already connected.", .message⟩ true,
        DB.mk [⟨"acc1", "a@x.com", "alice", none⟩]
          [⟨"s1", 5000, some "acc1", ["acc1"]⟩]
          [⟨"github", "gh1", some "acc1"⟩] [] [] [], 0) :=
  (loader_already_connected_idempotent
    (DB.mk [⟨"acc1", "a@x.com", "alice", none⟩]
      [⟨"s1", 5000, some "acc1", ["acc1"]⟩]
      [⟨"github", "gh1", some "acc1"⟩] [] [] [])
    1000 "github" "GitHub" ⟨"gh1", "a@x.com", some "alice", none⟩
    (some "s1") none "s9" "acc1" ⟨"github", "gh1", some "acc1"⟩
    (by decide) (by decide) (by decide)).1

/-- C8: with no connection for the provider identity, an
unauthenticated caller and no account matching the lowercased profile
email, the loader stores the raw email, the normalized profile and the
provider id into the verification-flow session, redirects to
`/onboarding/{provider}` — appending `redirectTo` exactly when a
(non-empty) pending redirect-target cookie is present — destroys the
redirect-target cookie and mutates no state. -/
theorem loader_onboarding_spec (db : DB) (now : Nat)
    (providerName label : String) (profile : Profile)
    (cookie : Option String) (sid : String)
    (hconn : db.connections.find? (fun c =>
        c.providerName == providerName && c.providerId == profile.id) =
        none)
    (hanon : getAccountId db now cookie = .noSession)
    (hemail : db.accounts.find? (fun a =>
        a.email == strLower profile.email) = none) :
    (loader db now providerName label (.ok profile) cookie none sid =
      (.onboardingRedirect ("/onboarding/" ++ providerName)
        ⟨profile.email,
          { profile with
              email := normalizeEmail profile.email
              username := profile.username.map normalizeUsername },
          profile.id⟩ true, db, 0))
    ∧ ∀ r, r ≠ "" →
        loader db now providerName label (.ok profile) cookie (some r)
          sid =
        (.onboardingRedirect
          ("/onboarding/" ++ providerName ++ "?redirectTo=" ++
            formUrlEncode r)
          ⟨profile.email,
            { profile with
                email := normalizeEmail profile.email
                username := profile.username.map normalizeUsername },
            profile.id⟩ true, db, 0) := by
  constructor
  · simp only [loader, hconn, hanon, hemail]
  · intro r hr
    simp only [loader, hconn, hanon, hemail, if_neg hr]

/-- C8 witness: a brand-new GitHub identity goes to onboarding with the
normalized profile in the verification session, with and without a
pending redirect target. -/
theorem loader_onboarding_spec_witness :
    loader (DB.mk [] [] [] [] [] []) 1000 "github" "GitHub"
      (.ok ⟨"gh1", "New@X.com", some "New User!", none⟩) none
      (some "/foo bar") "s9" =
      (.onboardingRedirect "/onboarding/github?redirectTo=%2Ffoo+bar"
        ⟨"New@X.com", ⟨"gh1", "new@x.com", some "new_user_", none⟩,
          "gh1"⟩ true, DB.mk [] [] [] [] [] [], 0) := by
  have h := (loader_onboarding_spec (DB.mk [] [] [] [] [] []) 1000 "github"
    "GitHub" ⟨"gh1", "New@X.com", some "New User!", none⟩ none "s9"
    (by decide) (by decide) (by decide)).2 "/foo bar" (by decide)
  rw [h]
  decide

end EpicStack
